import Mathlib

/-!
Shallow embedding of the Turbinia evidence core: `turbinia/evidence.py`,
`turbinia/processors/mount_local.py`, `turbinia/workers/docker.py` and the
job declarations in `turbinia/jobs/docker.py` and `turbinia/jobs/tomcat.py`.

Python objects are modelled by their `__dict__`: an insertion-ordered
association list from attribute names to values.  External subprocesses and
the cloud attach/detach capability are modelled by oracles recording the
outcome the environment would produce, and every invocation of an external
step is recorded in an event trace.
-/

/-- A JSON-serialisable Python value (the value model of the evidence
envelope: `None`, booleans, strings, integers, lists and dicts). -/
inductive PyVal where
  | none
  | bool (b : Bool)
  | str (s : String)
  | int (n : Int)
  | list (xs : List PyVal)
  | dict (kvs : List (String × PyVal))

/-- The Python type name of a value, as `str(type(x))` reports it. -/
def PyVal.typeName : PyVal → String
  | .none => "NoneType"
  | .bool _ => "bool"
  | .str _ => "str"
  | .int _ => "int"
  | .list _ => "list"
  | .dict _ => "dict"

/-- A Python object's `__dict__`: insertion-ordered attribute list. -/
abbrev PyDict := List (String × PyVal)

/-- Python truthiness (`if not x` tests): `None`, `False`, `0`, empty
strings and empty containers are falsy. -/
def PyVal.truthy : PyVal → Bool
  | .none => false
  | .bool b => b
  | .str s => !s.isEmpty
  | .int n => n != 0
  | .list xs => !xs.isEmpty
  | .dict kvs => !kvs.isEmpty

/-- `setattr` / dict update: replace the value in place if the key is
present (Python dicts keep the original insertion position), otherwise
append the new binding at the end. -/
def setAttr : PyDict → String → PyVal → PyDict
  | [], k, v => [(k, v)]
  | (k0, v0) :: rest, k, v =>
      if k0 = k then (k, v) :: rest else (k0, v0) :: setAttr rest k v

/-- Instance `__dict__` lookup (also `dict.get(k, None)` when composed with
`Option.getD .none`). -/
def getAttr : PyDict → String → Option PyVal
  | [], _ => Option.none
  | (k0, v0) :: rest, k => if k0 = k then some v0 else getAttr rest k

/-- Exceptions the modelled code can raise. -/
inductive PyExn where
  | turbinia (msg : String)
  | typeError (msg : String)
  | attributeError (msg : String)
deriving DecidableEq

/-- Python attribute read on an evidence instance.  None of the evidence
classes in `evidence.py` define class-level data attributes (only methods),
so reading a data attribute consults exactly the instance `__dict__`;
a missing key raises `AttributeError`. -/
def getAttrE (d : PyDict) (k : String) : Except PyExn PyVal :=
  match getAttr d k with
  | some v => Except.ok v
  | Option.none => Except.error (PyExn.attributeError k)

/-- `Evidence.__init__` (evidence.py lines 95-112) run on the object state
`d` with the dynamic class name `typeName` (Python sets
`self.type = self.__class__.__name__`). -/
def Evidence.initOn (d : PyDict) (typeName : String)
    (name description source local_path tags request_id : PyVal) : PyDict :=
  let d := setAttr d "copyable" (.bool false)
  let d := setAttr d "config" (.dict [])
  let d := setAttr d "cloud_only" (.bool false)
  let d := setAttr d "description" description
  let d := setAttr d "source" source
  let d := setAttr d "local_path" local_path
  let d := setAttr d "tags" (if tags.truthy then tags else .dict [])
  let d := setAttr d "request_id" request_id
  let d := setAttr d "processed_by" (.list [])
  let d := setAttr d "type" (.str typeName)
  let d := setAttr d "name" (if name.truthy then name else .str typeName)
  let d := setAttr d "saved_path" .none
  setAttr d "saved_path_type" .none

/-- `RawDisk.__init__` (evidence.py lines 181-189): runs `Evidence.__init__`
then sets `mount_partition`, `path_to_disk` (a copy of the *current*
`local_path`), `size`, and the private working fields. -/
def RawDisk.initOn (d : PyDict) (typeName : String)
    (mount_partition size name description source local_path tags request_id : PyVal) :
    PyDict :=
  let d := Evidence.initOn d typeName name description source local_path tags request_id
  let d := setAttr d "mount_partition" mount_partition
  let d := setAttr d "path_to_disk" ((getAttr d "local_path").getD .none)
  let d := setAttr d "size" size
  let d := setAttr d "_loopdevice_path" .none
  setAttr d "_disk_mount_path" .none

/-- `EncryptedDisk.__init__` (evidence.py lines 224-232): sets the
encryption fields first, then runs `RawDisk.__init__`. -/
def EncryptedDisk.initOn (d : PyDict) (typeName : String)
    (encryption_type encryption_key unencrypted_path mount_partition size
     name description source local_path tags request_id : PyVal) : PyDict :=
  let d := setAttr d "encryption_type" encryption_type
  let d := setAttr d "encryption_key" encryption_key
  let d := setAttr d "unencrypted_path" unencrypted_path
  RawDisk.initOn d typeName mount_partition size name description source
    local_path tags request_id

/-- `GoogleCloudDisk.__init__` (evidence.py lines 244-250): sets `project`,
`zone`, `disk_name`, runs `RawDisk.__init__`, then forces
`cloud_only = True`. -/
def GoogleCloudDisk.initOn (d : PyDict) (typeName : String)
    (project zone disk_name mount_partition size name description source
     local_path tags request_id : PyVal) : PyDict :=
  let d := setAttr d "project" project
  let d := setAttr d "zone" zone
  let d := setAttr d "disk_name" disk_name
  let d := RawDisk.initOn d typeName mount_partition size name description
    source local_path tags request_id
  setAttr d "cloud_only" (.bool true)

/-- `GoogleCloudDiskRawEmbedded.__init__` (evidence.py lines 274-277). -/
def GoogleCloudDiskRawEmbedded.initOn (d : PyDict) (typeName : String)
    (embedded_path project zone disk_name mount_partition size name
     description source local_path tags request_id : PyVal) : PyDict :=
  let d := setAttr d "embedded_path" embedded_path
  GoogleCloudDisk.initOn d typeName project zone disk_name mount_partition
    size name description source local_path tags request_id

/-- `PlasoFile.__init__` (evidence.py lines 294-298). -/
def PlasoFile.initOn (d : PyDict) (typeName : String)
    (plaso_version name description source local_path tags request_id : PyVal) :
    PyDict :=
  let d := setAttr d "plaso_version" plaso_version
  let d := Evidence.initOn d typeName name description source local_path tags
    request_id
  setAttr d "copyable" (.bool true)

/-- `PlasoCsvFile.__init__` (evidence.py lines 304-307): sets
`plaso_version`, then calls `PlasoFile.__init__` without forwarding it
(the parent default `None` overwrites it). -/
def PlasoCsvFile.initOn (d : PyDict) (typeName : String)
    (plaso_version name description source local_path tags request_id : PyVal) :
    PyDict :=
  let d := setAttr d "plaso_version" plaso_version
  PlasoFile.initOn d typeName .none name description source local_path tags
    request_id

/-- `ReportText.__init__` (evidence.py lines 314-317). -/
def ReportText.initOn (d : PyDict) (typeName : String)
    (text_data name description source local_path tags request_id : PyVal) :
    PyDict :=
  let d := setAttr d "text_data" text_data
  let d := Evidence.initOn d typeName name description source local_path tags
    request_id
  setAttr d "copyable" (.bool true)

/-- `TextFile.__init__` (evidence.py lines 323-325). -/
def TextFile.initOn (d : PyDict) (typeName : String)
    (name description source local_path tags request_id : PyVal) : PyDict :=
  let d := Evidence.initOn d typeName name description source local_path tags
    request_id
  setAttr d "copyable" (.bool true)

/-- `ExportedFileArtifact.__init__` (evidence.py lines 336-340): its single
parameter `artifact_name` has no default value. -/
def ExportedFileArtifact.init (artifact_name : PyVal) : PyDict :=
  let d := Evidence.initOn [] "ExportedFileArtifact" .none .none .none .none
    .none .none
  let d := setAttr d "artifact_name" artifact_name
  setAttr d "copyable" (.bool true)

/-- Outcome of calling a module attribute with zero arguments, as
`evidence_decode` does with `getattr(sys.modules[__name__], type_)()`. -/
inductive CtorResult where
  | ok (d : PyDict)
  | typeError (msg : String)

/-- The module attributes of `turbinia.evidence` that decode can resolve,
each mapped to the result of calling it with no arguments.  The classes are
those defined in evidence.py; `ExportedFileArtifact` rejects the zero-arg
call because `artifact_name` is a required positional parameter.  The
non-class module attributes (`json`, `os`, `sys`, `config`, `mount_local`,
`unicode_literals`, `evidence_decode`) are not callable with zero arguments
and raise `TypeError`; `TurbiniaException()` constructs an exception
instance with an empty `__dict__`. -/
def moduleCallZero : String → Option CtorResult
  | "Evidence" => some (.ok (Evidence.initOn [] "Evidence" .none .none .none
      .none .none .none))
  | "Directory" => some (.ok (Evidence.initOn [] "Directory" .none .none .none
      .none .none .none))
  | "RawDisk" => some (.ok (RawDisk.initOn [] "RawDisk" .none .none .none
      .none .none .none .none .none))
  | "EncryptedDisk" => some (.ok (EncryptedDisk.initOn [] "EncryptedDisk"
      .none .none .none .none .none .none .none .none .none .none .none))
  | "GoogleCloudDisk" => some (.ok (GoogleCloudDisk.initOn [] "GoogleCloudDisk"
      .none .none .none .none .none .none .none .none .none .none .none))
  | "GoogleCloudDiskRawEmbedded" => some (.ok (GoogleCloudDiskRawEmbedded.initOn
      [] "GoogleCloudDiskRawEmbedded" .none .none .none .none .none .none .none
      .none .none .none .none .none))
  | "PlasoFile" => some (.ok (PlasoFile.initOn [] "PlasoFile" .none .none .none
      .none .none .none .none))
  | "PlasoCsvFile" => some (.ok (PlasoCsvFile.initOn [] "PlasoCsvFile" .none
      .none .none .none .none .none .none))
  | "ReportText" => some (.ok (ReportText.initOn [] "ReportText" .none .none
      .none .none .none .none .none))
  | "TextFile" => some (.ok (TextFile.initOn [] "TextFile" .none .none .none
      .none .none .none))
  | "FilteredTextFile" => some (.ok (TextFile.initOn [] "FilteredTextFile"
      .none .none .none .none .none .none))
  | "ExportedFileArtifact" => some (.typeError
      "__init__ missing 1 required positional argument: artifact_name")
  | "TurbiniaException" => some (.ok [])
  | "json" => some (.typeError "module object is not callable")
  | "os" => some (.typeError "module object is not callable")
  | "sys" => some (.typeError "module object is not callable")
  | "config" => some (.typeError "module object is not callable")
  | "mount_local" => some (.typeError "module object is not callable")
  | "unicode_literals" => some (.typeError "object is not callable")
  | "evidence_decode" => some (.typeError
      "evidence_decode missing 1 required positional argument: evidence_dict")
  | _ => Option.none

/-- Result of `evidence_decode`: the decoded object's `__dict__`, a raised
`TurbiniaException`, or a raised `TypeError`. -/
inductive DecodeResult where
  | ok (d : PyDict)
  | turbiniaError (msg : String)
  | typeError (msg : String)

/-- `evidence_decode` (evidence.py lines 33-65): reject non-dicts and falsy
`type` values with `TurbiniaException`; resolve `type` as a module
attribute (`AttributeError` is converted to `TurbiniaException`, any other
construction error such as `TypeError` propagates); construct the variant
with zero arguments, then *replace* the new instance's `__dict__` with the
envelope (`evidence.__dict__ = evidence_dict`), discarding every
constructor-set default. -/
def evidence_decode (evidence_dict : PyVal) : DecodeResult :=
  match evidence_dict with
  | .dict kvs =>
    let type_ := (getAttr kvs "type").getD .none
    if !type_.truthy then
      .turbiniaError "No Type attribute for evidence object"
    else
      match type_ with
      | .str s =>
        match moduleCallZero s with
        | Option.none =>
            .turbiniaError
              ("No Evidence object of type " ++ s ++ " in evidence module")
        | some (.typeError m) => .typeError m
        | some (.ok _newInstance) => .ok kvs
      | _ => .typeError "attribute name must be string"
  | other =>
      .turbiniaError
        ("Evidence_dict is not a dictionary, type is " ++ other.typeName)

/-- `Evidence.serialize` (evidence.py lines 117-119): returns the
instance's `__dict__` itself. -/
def Evidence.serialize (d : PyDict) : PyVal := .dict d

/-- The evidence class names whose constructor accepts a zero-argument
call (every class in evidence.py except `ExportedFileArtifact`). -/
def zeroArgVariants : List String :=
  ["Evidence", "Directory", "RawDisk", "EncryptedDisk", "GoogleCloudDisk",
   "GoogleCloudDiskRawEmbedded", "PlasoFile", "PlasoCsvFile", "ReportText",
   "TextFile", "FilteredTextFile"]

/-- `DockerContainersEnumerationJob` declarations (jobs/docker.py lines
31-32), as evidence class names. -/
def DockerContainersEnumerationJob.evidence_input : List String :=
  ["GoogleCloudDisk", "GoogleCloudDiskRawEmbedded", "RawDisk"]

/-- `DockerContainersEnumerationJob.evidence_output` (jobs/docker.py). -/
def DockerContainersEnumerationJob.evidence_output : List String :=
  ["DockerContainer"]

/-- `TomcatExtractionJob.evidence_input` (jobs/tomcat.py). -/
def TomcatExtractionJob.evidence_input : List String :=
  ["Directory", "DockerContainer", "RawDisk", "GoogleCloudDisk",
   "GoogleCloudDiskRawEmbedded"]

/-- External actions performed by the lifecycle code.  Each event records
an *invocation* of the named external step together with the argument the
code passed to it (the subprocess is only reached when the argument has the
type the command construction needs; a `None` argument makes the command
construction itself raise `TypeError` before any process runs, but the step
was still invoked with that argument). -/
inductive Eff where
  | losetupAttach (source : PyVal)
  | mountCall (device : String) (target : String)
  | umountCall (path : PyVal)
  | rmdirCall (path : String)
  | losetupDelete (device : PyVal)
  | attachDisk (diskName : PyVal)
  | detachDisk (diskName : PyVal) (localPath : PyVal)

/-- `subprocess.check_call`: succeeds or raises `CalledProcessError`,
driven by the environment. -/
def check_call (ok : Bool) : Except String Unit :=
  if ok then .ok () else .error "CalledProcessError"

/-- Environment oracle for the `mount_local` subprocesses: the outcome each
external call would have. -/
structure MountOracle where
  /-- `losetup --show --find -P`: the device path printed on success, or a
  `CalledProcessError`. -/
  losetup : Except String String
  /-- The configured mount parent directory exists (or is creatable) and is
  a directory (mount_local.py lines 50-60). -/
  mountDirOk : Bool
  /-- The fresh unique directory `tempfile.mkdtemp` creates under the mount
  parent. -/
  mkdtempPath : String
  /-- `os.path.exists` on the numbered partition device node. -/
  partitionExists : Bool
  /-- The `mount` subprocess succeeds. -/
  mountOk : Bool
  /-- The `umount` subprocess succeeds. -/
  umountOk : Bool
  /-- `os.rmdir` on the mount path succeeds. -/
  rmdirOk : Bool
  /-- The `losetup -d` subprocess succeeds. -/
  loDeleteOk : Bool

/-- `PreprocessLoSetup` (mount_local.py lines 31-43): run losetup on the
source path and return the printed device, converting `CalledProcessError`
into `TurbiniaException`.  A non-string source makes the command/log-line
construction raise `TypeError` before the subprocess runs. -/
def PreprocessLoSetup (source_path : PyVal) (o : MountOracle) :
    List Eff × Except PyExn String :=
  match source_path with
  | .str _ =>
    match o.losetup with
    | .ok dev => ([.losetupAttach source_path], .ok dev)
    | .error e =>
        ([.losetupAttach source_path],
         .error (.turbinia ("Could not set losetup devices " ++ e)))
  | src =>
      ([.losetupAttach src],
       .error (.typeError "sequence item 5: expected str instance"))

/-- `PreprocessMountDisk` (mount_local.py lines 46-79): check/create the
mount parent directory, create a fresh unique mount directory, build the
partition device path `<device>p<partition_number>` (formatting raises
`TypeError` unless the partition number is an int), fall back to the raw
loop device when the partition node does not exist, then mount;
`CalledProcessError` becomes `TurbiniaException`. -/
def PreprocessMountDisk (losetup_device : String) (partition_number : PyVal)
    (o : MountOracle) : List Eff × Except PyExn String :=
  if !o.mountDirOk then
    ([], .error (.turbinia "Mount dir exists, but is not a directory"))
  else
    let mount_path := o.mkdtempPath
    match partition_number with
    | .int n =>
      let path_to_partition :=
        if o.partitionExists then losetup_device ++ "p" ++ toString n
        else losetup_device
      match check_call o.mountOk with
      | .ok _ => ([.mountCall path_to_partition mount_path], .ok mount_path)
      | .error e =>
          ([.mountCall path_to_partition mount_path],
           .error (.turbinia ("Could not mount directory " ++ e)))
    | _ =>
        ([], .error (.typeError "unsupported format string passed"))

/-- `PostprocessDeleteLosetup` (mount_local.py lines 113-120): run
`losetup -d`; a `CalledProcessError` is caught and discarded (the raise in
the source is commented out).  A non-string device makes the command/
log-line construction raise `TypeError` before the subprocess runs. -/
def PostprocessDeleteLosetup (losetup_device : PyVal) (o : MountOracle) :
    List Eff × Except PyExn Unit :=
  match losetup_device with
  | .str _ =>
    match check_call o.loDeleteOk with
    | .ok _ => ([.losetupDelete losetup_device], .ok ())
    | .error _ => ([.losetupDelete losetup_device], .ok ())
  | dev =>
      ([.losetupDelete dev],
       .error (.typeError "sequence item 3: expected str instance"))

/-- `PostprocessUnmountPath` (mount_local.py lines 123-142): run `umount`
(`CalledProcessError` caught and discarded) then `os.rmdir` on the mount
path (`OSError` caught and discarded).  A non-string path makes the
command/log-line construction raise `TypeError` before the subprocess
runs. -/
def PostprocessUnmountPath (mount_path : PyVal) (o : MountOracle) :
    List Eff × Except PyExn Unit :=
  match mount_path with
  | .str p =>
    let umountTrace : List Eff :=
      match check_call o.umountOk with
      | .ok _ => [.umountCall mount_path]
      | .error _ => [.umountCall mount_path]
    let rmdirTrace : List Eff :=
      match check_call o.rmdirOk with
      | .ok _ => [.rmdirCall p]
      | .error _ => [.rmdirCall p]
    (umountTrace ++ rmdirTrace, .ok ())
  | mp =>
      ([.umountCall mp],
       .error (.typeError "sequence item 2: expected str instance"))

/-- The result of running a lifecycle method: the trace of external
actions, the object's `__dict__` afterwards (including partial mutation
when an exception interrupted the method), and the raised exception, if
any. -/
structure Outcome where
  trace : List Eff
  state : PyDict
  exn : Option PyExn

/-- `RawDisk.preprocess` (evidence.py lines 198-205): attach
`self.path_to_disk` as a loop device, store it in `self._losetup_device`,
mount the requested partition, store the mount path in
`self._disk_mount_path` and publish it as `self.local_path`.  There is no
exception handler: a failure propagates with whatever attributes were
already set. -/
def RawDisk.preprocess (d : PyDict) (o : MountOracle) : Outcome :=
  match getAttrE d "path_to_disk" with
  | .error e => ⟨[], d, some e⟩
  | .ok src =>
    match PreprocessLoSetup src o with
    | (t1, .error e) => ⟨t1, d, some e⟩
    | (t1, .ok dev) =>
      let d := setAttr d "_losetup_device" (.str dev)
      match getAttrE d "mount_partition" with
      | .error e => ⟨t1, d, some e⟩
      | .ok part =>
        match PreprocessMountDisk dev part o with
        | (t2, .error e) => ⟨t1 ++ t2, d, some e⟩
        | (t2, .ok mpath) =>
          let d := setAttr d "_disk_mount_path" (.str mpath)
          let d := setAttr d "local_path" (.str mpath)
          ⟨t1 ++ t2, d, none⟩

/-- `RawDisk.postprocess` (evidence.py lines 207-212): unmount
`self._disk_mount_path`, clear it, delete the loop device
`self._losetup_device`, clear it, clear `self.local_path`. -/
def RawDisk.postprocess (d : PyDict) (o : MountOracle) : Outcome :=
  match getAttrE d "_disk_mount_path" with
  | .error e => ⟨[], d, some e⟩
  | .ok mp =>
    match PostprocessUnmountPath mp o with
    | (t1, .error e) => ⟨t1, d, some e⟩
    | (t1, .ok _) =>
      let d := setAttr d "_disk_mount_path" .none
      match getAttrE d "_losetup_device" with
      | .error e => ⟨t1, d, some e⟩
      | .ok lo =>
        match PostprocessDeleteLosetup lo o with
        | (t2, .error e) => ⟨t1 ++ t2, d, some e⟩
        | (t2, .ok _) =>
          let d := setAttr d "_losetup_device" .none
          let d := setAttr d "local_path" .none
          ⟨t1 ++ t2, d, none⟩

/-- Environment oracle for the cloud attach capability. -/
structure CloudOracle where
  /-- The local device path the attach capability reports, or an opaque
  failure. -/
  attach : Except String String

/-- Modelled from the spec: `google_cloud.PreprocessAttachDisk` (the
`turbinia/processors/google_cloud.py` module is conditionally imported and
not among the shown sources).  Per spec section 6, the external cloud-disk
attach capability is given a disk identifier and returns an attached local
device path; failures are opaque errors. -/
def PreprocessAttachDisk (disk_name : PyVal) (c : CloudOracle) :
    List Eff × Except PyExn String :=
  match c.attach with
  | .ok p => ([.attachDisk disk_name], .ok p)
  | .error e => ([.attachDisk disk_name], .error (.turbinia e))

/-- Modelled from the spec: `google_cloud.PostprocessDetachDisk` (module
not among the shown sources).  Per spec section 6 the detach capability is
given the disk identifier and completes with no return value; the event
records the arguments the caller passed. -/
def PostprocessDetachDisk (disk_name local_path : PyVal) :
    List Eff × Except PyExn Unit :=
  ([.detachDisk disk_name local_path], .ok ())

/-- `GoogleCloudDisk.preprocess` (evidence.py lines 252-254): attach the
named cloud disk, assign the attached device path to `self.local_path`,
then run `RawDisk.preprocess` on the same object (which reads
`self.path_to_disk`, an attribute this method never updates). -/
def GoogleCloudDisk.preprocess (d : PyDict) (c : CloudOracle)
    (o : MountOracle) : Outcome :=
  match getAttrE d "disk_name" with
  | .error e => ⟨[], d, some e⟩
  | .ok dn =>
    match PreprocessAttachDisk dn c with
    | (t1, .error e) => ⟨t1, d, some e⟩
    | (t1, .ok devPath) =>
      let d := setAttr d "local_path" (.str devPath)
      let out := RawDisk.preprocess d o
      ⟨t1 ++ out.trace, out.state, out.exn⟩

/-- `GoogleCloudDisk.postprocess` (evidence.py lines 256-259): run
`RawDisk.postprocess` (which clears `self.local_path`), then call the
detach capability with `self.disk_name` and the *current*
`self.local_path`, then clear `self.local_path` again. -/
def GoogleCloudDisk.postprocess (d : PyDict) (o : MountOracle) : Outcome :=
  let out := RawDisk.postprocess d o
  match out.exn with
  | some _ => out
  | none =>
    match getAttrE out.state "disk_name" with
    | .error e => ⟨out.trace, out.state, some e⟩
    | .ok dn =>
      match getAttrE out.state "local_path" with
      | .error e => ⟨out.trace, out.state, some e⟩
      | .ok lp =>
        match PostprocessDetachDisk dn lp with
        | (t2, .error e) => ⟨out.trace ++ t2, out.state, some e⟩
        | (t2, .ok _) =>
          let d2 := setAttr out.state "local_path" .none
          ⟨out.trace ++ t2, d2, none⟩

/-- The method names defined along the ancestor chain
`GoogleCloudDisk` → `RawDisk` → `Evidence` in evidence.py, which is what
attribute lookup on `super(GoogleCloudDiskRawEmbedded, self)` searches. -/
def googleCloudDiskAncestorMethods : List String :=
  ["__init__", "__str__", "serialize", "to_json", "copy_context",
   "preprocess", "postprocess"]

/-- `GoogleCloudDiskRawEmbedded.postprocess` (evidence.py lines 283-284):
the body is `super(GoogleCloudDiskRawEmbedded, self).post()`.  No ancestor
class defines a method named `post`, so the attribute lookup raises
`AttributeError` before any teardown step runs. -/
def GoogleCloudDiskRawEmbedded.postprocess (d : PyDict) : Outcome :=
  if googleCloudDiskAncestorMethods.contains "post" then
    ⟨[], d, none⟩
  else
    ⟨[], d, some (.attributeError "super object has no attribute post")⟩

/-- Modelled from the spec: the `DockerContainer` evidence variant that
`workers/docker.py` and the jobs import from `turbinia.evidence`; no such
class appears in the shown evidence module.  Per spec section 4.4 a task
constructs fresh Evidence Entities with resource fields empty, here
carrying the discovered container id. -/
structure DockerContainer where
  container_id : PyVal

/-- Modelled from the spec: `TurbiniaTaskResult` (spec sections 4.4-4.5,
the `turbinia/workers` base module is not among the shown sources): it
accumulates an ordered sequence of derived Evidence Entities, each
attached together with the originating evidence's `config`, and
`close(task, success, status)` terminally records the success flag and the
status string. -/
structure TaskResult where
  evidenceList : List (DockerContainer × PyVal)
  closed : Bool
  success : Bool
  status : String

/-- Modelled from the spec: `result.add_evidence(evidence, config)`
appends the derived evidence together with the attached config. -/
def TaskResult.add_evidence (r : TaskResult) (e : DockerContainer)
    (cfg : PyVal) : TaskResult :=
  { r with evidenceList := r.evidenceList ++ [(e, cfg)] }

/-- Modelled from the spec: `result.close(task, success, status)`. -/
def TaskResult.close (r : TaskResult) (success : Bool) (status : String) :
    TaskResult :=
  { r with closed := true, success := success, status := status }

/-- A freshly created, still-open task result. -/
def TaskResult.fresh : TaskResult := ⟨[], false, false, ""⟩

/-- Python `' '.join(xs)`: every element must be a string, otherwise the
join raises `TypeError`. -/
def pyJoinSpace : List PyVal → Except PyExn String
  | [] => .ok ""
  | [.str s] => .ok s
  | .str s :: x :: rest =>
    match pyJoinSpace (x :: rest) with
    | .ok r => .ok (s ++ " " ++ r)
    | .error e => .error e
  | _ => .error (.typeError "sequence item: expected str instance")

/-- Environment oracle for `GetContainers` (workers/docker.py lines
34-82): whether a `de.py` binary is installed, the stdout of the
docker-explorer subprocess (or its failure), and the result of
`json.loads` on that output. -/
structure DockerOracle where
  dePresent : Bool
  subprocOut : Except String String
  parsed : Except String (List PyDict)

/-- `DockerContainersEnumerationTask.GetContainers` (workers/docker.py
lines 34-82): fail with `TurbiniaException` when no `de.py` binary
exists, when the docker-explorer subprocess fails, or when its output is
not parseable JSON; otherwise return the parsed container list. -/
def GetContainers (o : DockerOracle) : Except String (List PyDict) :=
  if !o.dePresent then
    .error "Could not find docker-explorer script: de.py"
  else
    match o.subprocOut with
    | .error e => .error ("Failed to run docker-explorer: " ++ e)
    | .ok _json_string =>
      match o.parsed with
      | .error e => .error ("Could not parse output of docker-explorer: " ++ e)
      | .ok infos => .ok infos

/-- `DockerContainersEnumerationTask.run` (workers/docker.py lines
84-122): when the evidence reports a mounted filesystem, enumerate the
containers (any `TurbiniaException` from `GetContainers` is caught and
turned into a failure status); on success append one `DockerContainer`
per entry (attached together with the input evidence's `config`), set the
status to `Found <n> containers: <ids>` and close with success; otherwise
close with a failure status.  A `TypeError` from the status join (a
missing `container_id` yields `None`) is not caught and propagates. -/
def DockerContainersEnumerationTask.run (is_mounted : Bool)
    (evidenceStr : String) (config : PyVal) (o : DockerOracle)
    (result : TaskResult) : Except PyExn TaskResult :=
  if is_mounted then
    match GetContainers o with
    | .ok infos =>
      let step := infos.foldl
        (fun (acc : List PyVal × TaskResult) info =>
          let cid := (getAttr info "container_id").getD .none
          (acc.1 ++ [cid], acc.2.add_evidence ⟨cid⟩ config))
        ([], result)
      match pyJoinSpace step.1 with
      | .error e => .error e
      | .ok joined =>
        .ok (step.2.close true
          ("Found " ++ toString step.1.length ++ " containers: " ++ joined))
    | .error e =>
      .ok (result.close false ("Error enumerating Docker containers: " ++ e))
  else
    .ok (result.close false
      ("Evidence " ++ evidenceStr ++ " did not expose a mounted file system"))

/-- The end-to-end scenario 2 envelope from the spec. -/
def c1Envelope : PyDict :=
  [("type", .str "GoogleCloudDisk"), ("disk_name", .str "d1"),
   ("project", .str "p"), ("zone", .str "z")]

/-- A concrete `ExportedFileArtifact` instance (the only constructor
argument is required). -/
def c2Artifact : PyDict := ExportedFileArtifact.init (.str "TomcatFile")

/-- Witness for C2 (amended): a default-constructed `RawDisk` instance
round-trips. -/
def rawDisk0 : PyDict :=
  RawDisk.initOn [] "RawDisk" .none .none .none .none .none .none .none .none

/-- A `RawDisk` over a local image file:
`RawDisk(mount_partition=1, local_path='/tmp/disk.img')` (so
`path_to_disk` is `/tmp/disk.img`). -/
def c3Disk : PyDict :=
  RawDisk.initOn [] "RawDisk" (.int 1) .none .none .none .none
    (.str "/tmp/disk.img") .none .none

/-- Environment for C3: losetup succeeds with `/dev/loop7`, the mount
subprocess fails. -/
def c3Oracle : MountOracle :=
  ⟨.ok "/dev/loop7", true, "/mnt/turbinia/turbiniaXYZ", true, false, true,
   true, true⟩

/-- A `GoogleCloudDiskRawEmbedded` in the Bound state: constructed with
its cloud identifiers and embedded path, then carrying the resource
fields a successful preprocess leaves behind. -/
def c4Disk : PyDict :=
  let d := GoogleCloudDiskRawEmbedded.initOn [] "GoogleCloudDiskRawEmbedded"
    (.str "images/disk.raw") (.str "p") (.str "z") (.str "d1") (.int 1)
    .none .none .none .none .none .none .none
  let d := setAttr d "_losetup_device" (.str "/dev/loop7")
  let d := setAttr d "_disk_mount_path" (.str "/mnt/turbinia/turbiniaXYZ")
  setAttr d "local_path" (.str "/mnt/turbinia/turbiniaXYZ/images/disk.raw")

/-- `GoogleCloudDisk(project='p', zone='z', disk_name='d1',
mount_partition=1)`: `local_path` is `None` at construction, so
`path_to_disk` is `None`. -/
def c5Disk : PyDict :=
  GoogleCloudDisk.initOn [] "GoogleCloudDisk" (.str "p") (.str "z")
    (.str "d1") (.int 1) .none .none .none .none .none .none .none

/-- Environment for C5: the cloud attach capability returns `/dev/sdb`. -/
def c5Cloud : CloudOracle := ⟨.ok "/dev/sdb"⟩

/-- Environment for C5: every local mount step would succeed. -/
def c5Mount : MountOracle :=
  ⟨.ok "/dev/loop0", true, "/mnt/turbinia/turbiniaABC", true, true, true,
   true, true⟩

/-- A `RawDisk` in the Bound state for the C6 witness. -/
def c6Disk : PyDict :=
  let d := RawDisk.initOn [] "RawDisk" (.int 1) .none .none .none .none
    (.str "/tmp/disk.img") .none .none
  let d := setAttr d "_losetup_device" (.str "/dev/loop7")
  setAttr d "_disk_mount_path" (.str "/mnt/turbinia/turbiniaXYZ")

/-- Environment for the C6 witness: the unmount subprocess fails. -/
def c6Oracle : MountOracle :=
  ⟨.ok "/dev/loop7", true, "/mnt/turbinia/turbiniaXYZ", true, true, false,
   true, true⟩

/-- The object state a successful `GoogleCloudDisk.preprocess` leaves
behind: `local_path` was first set to the attach result, then the RawDisk
chain recorded the loop device and overwrote `local_path` with the mount
path. -/
def boundCloudState (d : PyDict) (adev dev mp : String) : PyDict :=
  setAttr (setAttr (setAttr (setAttr d "local_path" (.str adev))
    "_losetup_device" (.str dev)) "_disk_mount_path" (.str mp))
    "local_path" (.str mp)

/-- A `GoogleCloudDisk` whose construction-time `local_path` is a string,
so that its preprocess can succeed end-to-end. -/
def c10Disk : PyDict :=
  GoogleCloudDisk.initOn [] "GoogleCloudDisk" (.str "p") (.str "z")
    (.str "d1") (.int 1) .none .none .none .none (.str "/dev/gcd") .none
    .none

/-- Environment for the C10 witness: attach returns `/dev/sdb`. -/
def c10Cloud : CloudOracle := ⟨.ok "/dev/sdb"⟩

/-- Environment for the C10 witness: every local step succeeds. -/
def c10Mount : MountOracle :=
  ⟨.ok "/dev/loop3", true, "/mnt/turbinia/turbiniaGCD", true, true, true,
   true, true⟩

/-- The request-scoped config on the evidence feeding the C7 scenario. -/
def c7Config : PyVal := .dict [("request_id", .str "req1")]

/-- Environment for C7: `de.py` is installed, the enumeration subprocess
prints the scenario JSON array, and parsing yields the two container
entries. -/
def c7Oracle : DockerOracle :=
  ⟨true,
   .ok "[\x7b\"container_id\": \"abc\"\x7d, \x7b\"container_id\": \"def\"\x7d]",
   .ok [[("container_id", .str "abc")], [("container_id", .str "def")]]⟩

theorem getAttr_setAttr_self (d : PyDict) (k : String) (v : PyVal) :
    getAttr (setAttr d k v) k = some v := by
  induction d with
  | nil => simp [setAttr, getAttr]
  | cons hd tl ih =>
    obtain ⟨k0, v0⟩ := hd
    by_cases h : k0 = k
    · simp [setAttr, h, getAttr]
    · simp [setAttr, h, getAttr, ih]

theorem getAttr_setAttr_ne (d : PyDict) (k k2 : String) (v : PyVal)
    (h : k ≠ k2) : getAttr (setAttr d k v) k2 = getAttr d k2 := by
  induction d with
  | nil => simp [setAttr, getAttr, h]
  | cons hd tl ih =>
    obtain ⟨k0, v0⟩ := hd
    by_cases h0 : k0 = k
    · subst h0; simp [setAttr, getAttr, h]
    · simp [setAttr, h0, getAttr, ih]

/-- Decoding any dict whose `type` is a registered zero-arg-constructible
class name returns the envelope dict itself. -/
theorem decode_dict_of_registered (d : PyDict) (s : String) (nd : PyDict)
    (hs : s.isEmpty = false)
    (hty : getAttr d "type" = some (.str s))
    (hctor : moduleCallZero s = some (.ok nd)) :
    evidence_decode (.dict d) = .ok d := by
  simp only [evidence_decode, hty, Option.getD, PyVal.truthy, hs, hctor,
    Bool.not_false, Bool.not_true]
  rfl

/-- C1: the claim is false on the code.  `evidence_decode` replaces the
fresh instance's `__dict__` with the envelope, so the decoded instance's
attribute set is exactly the envelope's keys: reading `cloud_only` does
not yield `True` (it raises `AttributeError`, since no evidence class
defines a class-level `cloud_only`). -/
theorem C1_counterexample :
    evidence_decode (.dict c1Envelope) = .ok c1Envelope ∧
    getAttrE c1Envelope "cloud_only" ≠ .ok (.bool true) := by
  refine ⟨rfl, ?_⟩
  intro h
  simp [getAttrE, getAttr, c1Envelope] at h

/-- C1 (amended): decoding the scenario-2 envelope succeeds and the
decoded instance's `type` attribute equals `"GoogleCloudDisk"`, but the
decoded instance has no `cloud_only` attribute at all, because decode
overwrites the constructed instance's `__dict__` with the envelope and
the envelope lacks a `cloud_only` key. -/
theorem C1_decode_envelope :
    evidence_decode (.dict c1Envelope) = .ok c1Envelope ∧
    getAttrE c1Envelope "type" = .ok (.str "GoogleCloudDisk") ∧
    getAttrE c1Envelope "cloud_only" = .error (.attributeError "cloud_only") :=
  ⟨rfl, rfl, rfl⟩

/-- C2: the claim is false on the code for the registered variant
`ExportedFileArtifact`: decode calls every constructor with zero
arguments, `ExportedFileArtifact.__init__` requires `artifact_name`, so
`decode(encode(e))` raises `TypeError` instead of reproducing `e`. -/
theorem C2_counterexample :
    evidence_decode (Evidence.serialize c2Artifact) =
      .typeError "__init__ missing 1 required positional argument: artifact_name" ∧
    evidence_decode (Evidence.serialize c2Artifact) ≠ .ok c2Artifact := by
  refine ⟨rfl, ?_⟩
  intro h
  simp only [show evidence_decode (Evidence.serialize c2Artifact) =
    .typeError "__init__ missing 1 required positional argument: artifact_name"
    from rfl] at h
  exact DecodeResult.noConfusion h

/-- C2 (amended): for every registered variant whose constructor accepts
a zero-argument call (every evidence class except `ExportedFileArtifact`)
and every instance dict carrying that variant's `type` tag,
`evidence_decode(e.serialize())` returns exactly the instance dict, hence
field-for-field equality. -/
theorem C2_roundtrip_zero_arg_variants (V : String) (d : PyDict)
    (hV : V ∈ zeroArgVariants)
    (hty : getAttr d "type" = some (.str V)) :
    evidence_decode (Evidence.serialize d) = .ok d := by
  fin_cases hV <;>
    exact decode_dict_of_registered d _ _ (by rfl) hty (by rfl)

theorem C2_roundtrip_witness :
    ("RawDisk" ∈ zeroArgVariants ∧
      getAttr rawDisk0 "type" = some (.str "RawDisk")) ∧
    evidence_decode (Evidence.serialize rawDisk0) = .ok rawDisk0 :=
  ⟨⟨by decide, rfl⟩, C2_roundtrip_zero_arg_variants "RawDisk" rawDisk0
    (by decide) rfl⟩

/-- C8: any envelope typed `DockerContainer` fails to decode with the
unregistered-type `TurbiniaException`, because the evidence module
defines no `DockerContainer` class, even though the docker job declares
it as produced evidence and the tomcat job declares it as accepted
evidence. -/
theorem C8_docker_container_unregistered (kvs : PyDict)
    (h : getAttr kvs "type" = some (.str "DockerContainer")) :
    evidence_decode (.dict kvs) =
      .turbiniaError
        "No Evidence object of type DockerContainer in evidence module" ∧
    "DockerContainer" ∈ DockerContainersEnumerationJob.evidence_output ∧
    "DockerContainer" ∈ TomcatExtractionJob.evidence_input := by
  refine ⟨?_, by decide, by decide⟩
  simp only [evidence_decode, h, Option.getD]
  rfl

theorem C8_witness :
    getAttr [("type", PyVal.str "DockerContainer")] "type" =
      some (.str "DockerContainer") ∧
    evidence_decode (.dict [("type", PyVal.str "DockerContainer")]) =
      .turbiniaError
        "No Evidence object of type DockerContainer in evidence module" :=
  ⟨rfl, (C8_docker_container_unregistered
    [("type", PyVal.str "DockerContainer")] rfl).1⟩

/-- C9: any envelope typed `ExportedFileArtifact` makes decode raise
`TypeError` (not the documented `TurbiniaException` decode failure):
decode constructs every variant with zero arguments while
`ExportedFileArtifact.__init__` requires `artifact_name`, and only
`AttributeError` is converted to `TurbiniaException`. -/
theorem C9_exported_file_artifact_type_error (kvs : PyDict)
    (h : getAttr kvs "type" = some (.str "ExportedFileArtifact")) :
    evidence_decode (.dict kvs) =
      .typeError "__init__ missing 1 required positional argument: artifact_name" := by
  simp only [evidence_decode, h, Option.getD]
  rfl

theorem C9_witness :
    getAttr [("type", PyVal.str "ExportedFileArtifact")] "type" =
      some (.str "ExportedFileArtifact") ∧
    evidence_decode (.dict [("type", PyVal.str "ExportedFileArtifact")]) =
      .typeError "__init__ missing 1 required positional argument: artifact_name" :=
  ⟨rfl, C9_exported_file_artifact_type_error
    [("type", PyVal.str "ExportedFileArtifact")] rfl⟩

/-- C3: the claim is false on the code.  When the mount step fails after a
successful loop attach, `RawDisk.preprocess` propagates the exception
without running any release step: the trace holds exactly the loop-attach
and the failed mount invocation (no `losetup -d`), and the loop device
stays referenced in `_losetup_device`. -/
theorem C3_counterexample :
    (RawDisk.preprocess c3Disk c3Oracle).trace =
      [.losetupAttach (.str "/tmp/disk.img"),
       .mountCall "/dev/loop7p1" "/mnt/turbinia/turbiniaXYZ"] ∧
    (RawDisk.preprocess c3Disk c3Oracle).exn =
      some (.turbinia "Could not mount directory CalledProcessError") ∧
    getAttr (RawDisk.preprocess c3Disk c3Oracle).state "_losetup_device" =
      some (.str "/dev/loop7") :=
  ⟨rfl, rfl, rfl⟩

/-- C3 (amended): if the mount step fails after a successful loop-attach
step, `preprocess` raises the mount `TurbiniaException`, performs no
release action of any kind (in particular the loop device is NOT
released), leaves `local_path` unchanged (no mount path is published),
and leaves the leaked loop device referenced by `_losetup_device`. -/
theorem C3_mount_failure_leaks_loop_device
    (d : PyDict) (o : MountOracle) (src dev : String) (n : Int)
    (hsrc : getAttr d "path_to_disk" = some (.str src))
    (hlo : o.losetup = .ok dev)
    (hpart : getAttr d "mount_partition" = some (.int n))
    (hdir : o.mountDirOk = true)
    (hmount : o.mountOk = false) :
    (RawDisk.preprocess d o).exn =
      some (.turbinia "Could not mount directory CalledProcessError") ∧
    (∀ v, Eff.losetupDelete v ∉ (RawDisk.preprocess d o).trace) ∧
    (∀ p, Eff.umountCall p ∉ (RawDisk.preprocess d o).trace) ∧
    getAttr (RawDisk.preprocess d o).state "local_path" =
      getAttr d "local_path" ∧
    getAttr (RawDisk.preprocess d o).state "_losetup_device" =
      some (.str dev) := by
  have hpart2 : getAttr (setAttr d "_losetup_device" (.str dev))
      "mount_partition" = some (.int n) := by
    rw [getAttr_setAttr_ne d "_losetup_device" "mount_partition" (.str dev)
      (by decide)]
    exact hpart
  have hstep : RawDisk.preprocess d o =
      ⟨[.losetupAttach (.str src),
        .mountCall (if o.partitionExists then dev ++ "p" ++ toString n else dev)
          o.mkdtempPath],
       setAttr d "_losetup_device" (.str dev),
       some (.turbinia "Could not mount directory CalledProcessError")⟩ := by
    simp only [RawDisk.preprocess, getAttrE, hsrc, PreprocessLoSetup, hlo,
      hpart2, PreprocessMountDisk, hdir, hmount, check_call,
      Bool.not_true, Bool.false_eq_true, if_false, List.singleton_append]
    rfl
  rw [hstep]
  refine ⟨rfl, ?_, ?_, ?_, ?_⟩
  · intro v
    simp
  · intro p
    simp
  · exact getAttr_setAttr_ne d "_losetup_device" "local_path" (.str dev)
      (by decide)
  · exact getAttr_setAttr_self d "_losetup_device" (.str dev)

theorem C3_witness :
    (getAttr c3Disk "path_to_disk" = some (.str "/tmp/disk.img") ∧
     c3Oracle.losetup = .ok "/dev/loop7" ∧
     getAttr c3Disk "mount_partition" = some (.int 1) ∧
     c3Oracle.mountDirOk = true ∧ c3Oracle.mountOk = false) ∧
    ((RawDisk.preprocess c3Disk c3Oracle).exn =
      some (.turbinia "Could not mount directory CalledProcessError") ∧
     (∀ v, Eff.losetupDelete v ∉ (RawDisk.preprocess c3Disk c3Oracle).trace) ∧
     (∀ p, Eff.umountCall p ∉ (RawDisk.preprocess c3Disk c3Oracle).trace) ∧
     getAttr (RawDisk.preprocess c3Disk c3Oracle).state "local_path" =
       getAttr c3Disk "local_path" ∧
     getAttr (RawDisk.preprocess c3Disk c3Oracle).state "_losetup_device" =
       some (.str "/dev/loop7")) :=
  ⟨⟨rfl, rfl, rfl, rfl, rfl⟩,
   C3_mount_failure_leaks_loop_device c3Disk c3Oracle "/tmp/disk.img"
     "/dev/loop7" 1 rfl rfl rfl rfl rfl⟩

/-- C4: the code contradicts the claim (and the spec flags this as a
latent bug): `GoogleCloudDiskRawEmbedded.postprocess` calls
`super().post()`, a method no ancestor defines, so it raises
`AttributeError` immediately — no unmount, no loop delete, no cloud
detach is performed, the state is untouched, and the failure is raised to
the caller. -/
theorem C4_embedded_postprocess_bug :
    (GoogleCloudDiskRawEmbedded.postprocess c4Disk).trace = [] ∧
    (GoogleCloudDiskRawEmbedded.postprocess c4Disk).exn =
      some (.attributeError "super object has no attribute post") ∧
    (GoogleCloudDiskRawEmbedded.postprocess c4Disk).state = c4Disk :=
  ⟨rfl, rfl, rfl⟩

/-- C5: the code contradicts the claim.  `GoogleCloudDisk.preprocess`
assigns the attach result to `local_path`, but the `RawDisk` chain loops
`path_to_disk`, which was frozen to the construction-time `local_path`
(`None`) and is never updated: the losetup step is invoked with `None`
rather than the attached device `/dev/sdb`, and crashes with `TypeError`
when the command line is built. -/
theorem C5_losetup_gets_stale_path :
    (GoogleCloudDisk.preprocess c5Disk c5Cloud c5Mount).trace =
      [.attachDisk (.str "d1"), .losetupAttach PyVal.none] ∧
    Eff.losetupAttach (.str "/dev/sdb") ∉
      (GoogleCloudDisk.preprocess c5Disk c5Cloud c5Mount).trace ∧
    (GoogleCloudDisk.preprocess c5Disk c5Cloud c5Mount).exn =
      some (.typeError "sequence item 5: expected str instance") ∧
    getAttr c5Disk "path_to_disk" = some PyVal.none := by
  refine ⟨rfl, ?_, rfl, rfl⟩
  rw [show (GoogleCloudDisk.preprocess c5Disk c5Cloud c5Mount).trace =
    [.attachDisk (.str "d1"), .losetupAttach PyVal.none] from rfl]
  simp

theorem getAttr_setAttr (d : PyDict) (k k2 : String) (v : PyVal) :
    getAttr (setAttr d k v) k2 = if k = k2 then some v else getAttr d k2 := by
  by_cases h : k = k2
  · subst h
    simp [getAttr_setAttr_self]
  · simp [h, getAttr_setAttr_ne d k k2 v h]

/-- C6: for every `RawDisk` in the Bound state (string mount path and loop
device recorded), if the unmount subprocess fails during `postprocess()`,
the `CalledProcessError` is swallowed, loop-device deletion is still
attempted (the `losetup -d` invocation appears in the trace), and
`postprocess()` does not raise. -/
theorem C6_teardown_best_effort (d : PyDict) (o : MountOracle) (m l : String)
    (hm : getAttr d "_disk_mount_path" = some (.str m))
    (hl : getAttr d "_losetup_device" = some (.str l))
    (humount : o.umountOk = false) :
    (RawDisk.postprocess d o).exn = none ∧
    (RawDisk.postprocess d o).trace =
      [.umountCall (.str m), .rmdirCall m, .losetupDelete (.str l)] := by
  have hl2 : getAttr (setAttr d "_disk_mount_path" PyVal.none)
      "_losetup_device" = some (.str l) := by
    rw [getAttr_setAttr_ne d "_disk_mount_path" "_losetup_device" PyVal.none
      (by decide)]
    exact hl
  rcases hrm : o.rmdirOk <;> rcases hld : o.loDeleteOk <;>
    simp only [RawDisk.postprocess, getAttrE, hm, hl2,
      PostprocessUnmountPath, PostprocessDeleteLosetup, check_call, humount,
      hrm, hld, Bool.false_eq_true, if_false, if_true] <;>
    exact ⟨trivial, rfl⟩

theorem C6_witness :
    (getAttr c6Disk "_disk_mount_path" =
        some (.str "/mnt/turbinia/turbiniaXYZ") ∧
      getAttr c6Disk "_losetup_device" = some (.str "/dev/loop7") ∧
      c6Oracle.umountOk = false) ∧
    ((RawDisk.postprocess c6Disk c6Oracle).exn = none ∧
      (RawDisk.postprocess c6Disk c6Oracle).trace =
        [.umountCall (.str "/mnt/turbinia/turbiniaXYZ"),
         .rmdirCall "/mnt/turbinia/turbiniaXYZ",
         .losetupDelete (.str "/dev/loop7")]) :=
  ⟨⟨rfl, rfl, rfl⟩,
   C6_teardown_best_effort c6Disk c6Oracle "/mnt/turbinia/turbiniaXYZ"
     "/dev/loop7" rfl rfl rfl⟩

/-- `RawDisk.postprocess` on any Bound state: unmount, clear the mount
path, delete the loop device, clear it, clear `local_path` — never
raising, whatever the subprocess outcomes. -/
theorem rawdisk_postprocess_bound (d : PyDict) (o : MountOracle)
    (m l : String)
    (hm : getAttr d "_disk_mount_path" = some (.str m))
    (hl : getAttr (setAttr d "_disk_mount_path" PyVal.none)
      "_losetup_device" = some (.str l)) :
    RawDisk.postprocess d o =
      ⟨[.umountCall (.str m), .rmdirCall m, .losetupDelete (.str l)],
       setAttr (setAttr (setAttr d "_disk_mount_path" PyVal.none)
         "_losetup_device" PyVal.none) "local_path" PyVal.none, none⟩ := by
  rcases hum : o.umountOk <;> rcases hrm : o.rmdirOk <;>
    rcases hld : o.loDeleteOk <;>
    simp only [RawDisk.postprocess, getAttrE, hm, hl,
      PostprocessUnmountPath, PostprocessDeleteLosetup, check_call, hum,
      hrm, hld, Bool.false_eq_true, if_false, if_true] <;>
    rfl

/-- C10: on every `GoogleCloudDisk` whose `preprocess()` succeeded, the
subsequent `postprocess()` invokes the cloud detach capability with
`local_path` equal to `None`: the inherited `RawDisk.postprocess` clears
`local_path` before `PostprocessDetachDisk(self.disk_name,
self.local_path)` evaluates its arguments. -/
theorem C10_detach_called_with_none
    (d : PyDict) (c : CloudOracle) (o o2 : MountOracle)
    (dn adev src dev : String) (n : Int)
    (hdn : getAttr d "disk_name" = some (.str dn))
    (hattach : c.attach = .ok adev)
    (hsrc : getAttr d "path_to_disk" = some (.str src))
    (hpart : getAttr d "mount_partition" = some (.int n))
    (hlo : o.losetup = .ok dev)
    (hdir : o.mountDirOk = true)
    (hmount : o.mountOk = true) :
    (GoogleCloudDisk.preprocess d c o).exn = none ∧
    (GoogleCloudDisk.postprocess (GoogleCloudDisk.preprocess d c o).state
        o2).exn = none ∧
    (GoogleCloudDisk.postprocess (GoogleCloudDisk.preprocess d c o).state
        o2).trace =
      [.umountCall (.str o.mkdtempPath), .rmdirCall o.mkdtempPath,
       .losetupDelete (.str dev), .detachDisk (.str dn) PyVal.none] := by
  have hpre : GoogleCloudDisk.preprocess d c o =
      ⟨[.attachDisk (.str dn), .losetupAttach (.str src),
        .mountCall
          (if o.partitionExists then dev ++ "p" ++ toString n else dev)
          o.mkdtempPath],
       boundCloudState d adev dev o.mkdtempPath, none⟩ := by
    simp only [GoogleCloudDisk.preprocess, getAttrE, hdn,
      PreprocessAttachDisk, hattach, RawDisk.preprocess, getAttr_setAttr,
      PreprocessLoSetup, hlo, PreprocessMountDisk, hdir, hmount, check_call,
      hsrc, hpart, boundCloudState, Bool.not_true, Bool.false_eq_true,
      if_false, if_true, List.cons_append, List.nil_append,
      List.singleton_append]
    rfl
  have hm4 : getAttr (boundCloudState d adev dev o.mkdtempPath)
      "_disk_mount_path" = some (.str o.mkdtempPath) := by
    simp [boundCloudState, getAttr_setAttr]
  have hl4 : getAttr (setAttr (boundCloudState d adev dev o.mkdtempPath)
      "_disk_mount_path" PyVal.none) "_losetup_device" =
      some (.str dev) := by
    simp [boundCloudState, getAttr_setAttr]
  have hru := rawdisk_postprocess_bound
    (boundCloudState d adev dev o.mkdtempPath) o2 o.mkdtempPath dev hm4 hl4
  have hdn7 : getAttrE (setAttr (setAttr (setAttr
      (boundCloudState d adev dev o.mkdtempPath) "_disk_mount_path"
      PyVal.none) "_losetup_device" PyVal.none) "local_path" PyVal.none)
      "disk_name" = .ok (.str dn) := by
    simp [getAttrE, boundCloudState, getAttr_setAttr, hdn]
  have hlp7 : getAttrE (setAttr (setAttr (setAttr
      (boundCloudState d adev dev o.mkdtempPath) "_disk_mount_path"
      PyVal.none) "_losetup_device" PyVal.none) "local_path" PyVal.none)
      "local_path" = .ok PyVal.none := by
    simp [getAttrE, getAttr_setAttr]
  have hpost : GoogleCloudDisk.postprocess
      (boundCloudState d adev dev o.mkdtempPath) o2 =
      ⟨[.umountCall (.str o.mkdtempPath), .rmdirCall o.mkdtempPath,
        .losetupDelete (.str dev), .detachDisk (.str dn) PyVal.none],
       setAttr (setAttr (setAttr (setAttr
         (boundCloudState d adev dev o.mkdtempPath) "_disk_mount_path"
         PyVal.none) "_losetup_device" PyVal.none) "local_path" PyVal.none)
         "local_path" PyVal.none, none⟩ := by
    simp only [GoogleCloudDisk.postprocess, hru, hdn7, hlp7,
      PostprocessDetachDisk]
    rfl
  rw [hpre]
  exact ⟨rfl, by rw [show (Outcome.mk _ (boundCloudState d adev dev
      o.mkdtempPath) none).state = boundCloudState d adev dev o.mkdtempPath
      from rfl, hpost],
    by rw [show (Outcome.mk _ (boundCloudState d adev dev
      o.mkdtempPath) none).state = boundCloudState d adev dev o.mkdtempPath
      from rfl, hpost]⟩

theorem C10_witness :
    (getAttr c10Disk "disk_name" = some (.str "d1") ∧
      c10Cloud.attach = .ok "/dev/sdb" ∧
      getAttr c10Disk "path_to_disk" = some (.str "/dev/gcd") ∧
      getAttr c10Disk "mount_partition" = some (.int 1) ∧
      c10Mount.losetup = .ok "/dev/loop3" ∧
      c10Mount.mountDirOk = true ∧ c10Mount.mountOk = true) ∧
    ((GoogleCloudDisk.preprocess c10Disk c10Cloud c10Mount).exn = none ∧
      (GoogleCloudDisk.postprocess
        (GoogleCloudDisk.preprocess c10Disk c10Cloud c10Mount).state
        c10Mount).exn = none ∧
      (GoogleCloudDisk.postprocess
        (GoogleCloudDisk.preprocess c10Disk c10Cloud c10Mount).state
        c10Mount).trace =
        [.umountCall (.str "/mnt/turbinia/turbiniaGCD"),
         .rmdirCall "/mnt/turbinia/turbiniaGCD",
         .losetupDelete (.str "/dev/loop3"),
         .detachDisk (.str "d1") PyVal.none]) :=
  ⟨⟨rfl, rfl, rfl, rfl, rfl, rfl, rfl⟩,
   C10_detach_called_with_none c10Disk c10Cloud c10Mount c10Mount "d1"
     "/dev/sdb" "/dev/gcd" "/dev/loop3" 1 rfl rfl rfl rfl rfl rfl rfl⟩

/-- C7: on mounted evidence whose enumeration subprocess outputs the two
container entries, the task closes its result with success, attaches
exactly the two derived `DockerContainer` evidence items (ids `abc` and
`def`, each together with the input evidence's config), and reports
`Found 2 containers: abc def`. -/
theorem C7_enumeration_two_containers :
    DockerContainersEnumerationTask.run true
      "RawDisk:RawDisk:/mnt/turbinia/turbiniaXYZ" c7Config c7Oracle
      TaskResult.fresh =
      .ok ⟨[(⟨.str "abc"⟩, c7Config), (⟨.str "def"⟩, c7Config)], true, true,
        "Found 2 containers: abc def"⟩ := rfl
